import Mathlib

/-!
Verification development for the CHIP audio receiver data-plane pipeline.

The TypeScript sources are shallowly embedded: JavaScript numbers are
modelled by `ℚ` (all arithmetic appearing in the modelled code paths is
exact), `Map` objects by association lists, event emission by explicit
event lists returned from the modelled methods, and `Date.now()` by an
explicit `now : ℚ` parameter.  Components modelled:

* `UDPAudioServer` (udp-audio-server.ts): `expectSession`,
  `updateSessionStatistics`, `handleIncomingPacket`, `endSession`.
* `AudioSyncManager` (audio-sync-manager.ts): `calculatePlaybackTime`,
  `scheduleAudioChunk`, `scheduleSubtitle`.
* `JitterBuffer` (jitter-buffer.ts): `calculateBufferTime`,
  `getMaxBufferChunks`, `addChunk`, `adaptBufferSize`, `processBuffer`,
  plus an instance-level wrapper holding the shared configuration.
-/

/-- JavaScript `Math.ceil` on an exact rational. -/
def jsCeil (q : ℚ) : ℤ :=
  if q.den = 1 then q.num
  else if 0 < q.num then q.num / (q.den : ℤ) + 1
  else q.num / (q.den : ℤ)

/-- `types.ts` `AudioFormat` (deserialisation also produces `unknown`). -/
inductive AudioFormat where
  | pcm
  | mp3
  | opus
  | unknown
deriving DecidableEq

/-- `types.ts` `NetworkConditions`. -/
structure NetworkConditions where
  avgLatency : ℚ
  jitterMs : ℚ
  packetLoss : ℚ
  bandwidth : ℚ
deriving DecidableEq

/-- `types.ts` `AudioPacket` (the optional `checksum` is unused in the
modelled code paths and omitted). -/
structure AudioPacket where
  sessionId : String
  sequenceNumber : ℚ
  timestamp : ℚ
  playbackTime : ℚ
  audioData : List Nat
  format : AudioFormat
  sampleRate : ℚ
  isLast : Bool
deriving DecidableEq

/-- `types.ts` `SyncTimestamps`. -/
structure SyncTimestamps where
  ttsGenerated : ℚ
  packetSent : ℚ
  packetReceived : ℚ
  scheduledPlayback : ℚ
  actualPlayback : Option ℚ := none
deriving DecidableEq

/-- `types.ts` `SubtitleData` (`confidence` unused in modelled paths). -/
structure SubtitleData where
  text : String
  startTime : ℚ
  endTime : ℚ
  ttsOffset : ℚ
deriving DecidableEq

/-- `types.ts` `TimedAudioChunk`. -/
structure TimedAudioChunk where
  sessionId : String
  audio : List Nat
  playbackTime : ℚ
  duration : ℚ
  subtitles : Option SubtitleData
  sequenceNumber : ℚ
deriving DecidableEq

/-- `types.ts` `SessionStatistics`. -/
structure SessionStatistics where
  totalPackets : ℚ
  lostPackets : ℚ
  avgLatency : ℚ
  jitterMs : ℚ
  audioDuration : ℚ
  startTime : ℚ
  endTime : ℚ
deriving DecidableEq

/-- `udp-audio-server.ts` `ActiveSession`. -/
structure ActiveSession where
  sessionId : String
  remoteAddress : String
  remotePort : ℚ
  startTime : ℚ
  lastPacketTime : ℚ
  expectedSequence : ℚ
  statistics : SessionStatistics
  networkConditions : NetworkConditions
deriving DecidableEq

/-- `dgram.RemoteInfo`, restricted to the fields reaching the modelled
code (`address`, `port`). -/
structure RemoteInfo where
  address : String
  port : ℚ
deriving DecidableEq

/-- Association-list model of a JavaScript `Map`: lookup. -/
def mapGet {α : Type} (m : List (String × α)) (k : String) : Option α :=
  match m with
  | [] => none
  | (k', v) :: rest => if k' = k then some v else mapGet rest k

/-- Association-list model of a JavaScript `Map`: `set` replaces an
existing binding in place or appends a new one. -/
def mapSet {α : Type} (m : List (String × α)) (k : String) (v : α) :
    List (String × α) :=
  match m with
  | [] => [(k, v)]
  | (k', v') :: rest =>
      if k' = k then (k', v) :: rest else (k', v') :: mapSet rest k v

/-- Association-list model of a JavaScript `Map`: `delete`. -/
def mapDelete {α : Type} (m : List (String × α)) (k : String) :
    List (String × α) :=
  match m with
  | [] => []
  | (k', v') :: rest =>
      if k' = k then rest else (k', v') :: mapDelete rest k

theorem mapGet_mapSet_self {α : Type} (m : List (String × α)) (k : String)
    (v : α) : mapGet (mapSet m k v) k = some v := by
  induction m with
  | nil => simp [mapGet, mapSet]
  | cons hd tl ih =>
      obtain ⟨k', v'⟩ := hd
      by_cases h : k' = k
      · simp [mapGet, mapSet, h]
      · simp [mapGet, mapSet, h, ih]

/-- Events emitted by `UDPAudioServer` (`this.emit(...)` calls in the
modelled paths). -/
inductive ServerEvent where
  | audioPacket (packet : AudioPacket) (sync : SyncTimestamps)
      (net : NetworkConditions)
  | sessionEnd (sessionId : String) (stats : SessionStatistics)
deriving DecidableEq

/-- `UDPAudioServer` state: the `activeSessions` map (the socket and
event-emitter plumbing are external effects). -/
structure UDPAudioServer where
  activeSessions : List (String × ActiveSession)
deriving DecidableEq

namespace UDPAudioServer

/-- `UDPAudioServer.expectSession`: installs a fresh `ActiveSession`
record for `sessionId` (both `Date.now()` reads modelled by `now`). -/
def expectSession (server : UDPAudioServer) (sessionId : String)
    (remoteAddress : String) (remotePort : ℚ) (now : ℚ) : UDPAudioServer :=
  let session : ActiveSession :=
    { sessionId := sessionId
      remoteAddress := remoteAddress
      remotePort := remotePort
      startTime := now
      lastPacketTime := now
      expectedSequence := 0
      statistics :=
        { totalPackets := 0
          lostPackets := 0
          avgLatency := 0
          jitterMs := 0
          audioDuration := 0
          startTime := now
          endTime := 0 }
      networkConditions :=
        { avgLatency := 0
          jitterMs := 0
          packetLoss := 0
          bandwidth := 0 } }
  ⟨mapSet server.activeSessions sessionId session⟩

/-- `UDPAudioServer.updateSessionStatistics` (the `_rinfo` parameter is
unused in the source as well). -/
def updateSessionStatistics (session : ActiveSession) (packet : AudioPacket)
    (receiveTime : ℚ) (_rinfo : RemoteInfo) : ActiveSession :=
  let totalPackets := session.statistics.totalPackets + 1
  -- latency: time from TTS generation to reception
  let latency := receiveTime - packet.timestamp
  let avgLatency :=
    (session.statistics.avgLatency * (totalPackets - 1) + latency)
      / totalPackets
  -- jitter: variation in packet arrival times, exponential smoothing
  let expectedArrival :=
    session.lastPacketTime + (packet.playbackTime - session.statistics.startTime)
  let jitter := |receiveTime - expectedArrival|
  let jitterMs :=
    session.networkConditions.jitterMs * (9 / 10) + jitter * (1 / 10)
  let packetLoss := session.statistics.lostPackets / totalPackets
  -- bandwidth estimate (bytes per second)
  let elapsed := (receiveTime - session.statistics.startTime) / 1000
  let bandwidth :=
    if 0 < elapsed then
      totalPackets * (packet.audioData.length : ℚ) / elapsed
    else session.networkConditions.bandwidth
  { session with
      statistics :=
        { session.statistics with
            totalPackets := totalPackets
            avgLatency := avgLatency }
      networkConditions :=
        { avgLatency := avgLatency
          jitterMs := jitterMs
          packetLoss := packetLoss
          bandwidth := bandwidth } }

/-- `UDPAudioServer.endSession` (its `Date.now()` modelled by `now`). -/
def endSession (server : UDPAudioServer) (sessionId : String) (now : ℚ) :
    UDPAudioServer × List ServerEvent :=
  match mapGet server.activeSessions sessionId with
  | none => (server, [])
  | some session =>
      let stats :=
        { session.statistics with
            endTime := now
            audioDuration := now - session.statistics.startTime }
      (⟨mapDelete server.activeSessions sessionId⟩,
        [ServerEvent.sessionEnd sessionId stats])

/-- `UDPAudioServer.handleIncomingPacket`, from the point where the
datagram has been deserialised into `packet` (`Date.now()` modelled by
`receiveTime`).  Returns the updated server state and the emitted
events. -/
def handleIncomingPacket (server : UDPAudioServer) (packet : AudioPacket)
    (receiveTime : ℚ) (rinfo : RemoteInfo) :
    UDPAudioServer × List ServerEvent :=
  let syncTimestamps : SyncTimestamps :=
    { ttsGenerated := packet.timestamp
      packetSent := packet.timestamp
      packetReceived := receiveTime
      scheduledPlayback := packet.playbackTime }
  match mapGet server.activeSessions packet.sessionId with
  | none => (server, [])
  | some session =>
      let session := updateSessionStatistics session packet receiveTime rinfo
      -- check for packet loss
      let session :=
        if packet.sequenceNumber ≠ session.expectedSequence then
          let lostPackets := packet.sequenceNumber - session.expectedSequence
          if 0 < lostPackets then
            { session with
                statistics :=
                  { session.statistics with
                      lostPackets := session.statistics.lostPackets + lostPackets } }
          else session
        else session
      let session :=
        { session with
            expectedSequence := packet.sequenceNumber + 1
            lastPacketTime := receiveTime }
      let server : UDPAudioServer :=
        ⟨mapSet server.activeSessions packet.sessionId session⟩
      let events :=
        [ServerEvent.audioPacket packet syncTimestamps session.networkConditions]
      if packet.isLast then
        let r := endSession server packet.sessionId receiveTime
        (r.1, events ++ r.2)
      else
        (server, events)

end UDPAudioServer

/-- `audio-sync-manager.ts` `SyncSession`. -/
structure SyncSession where
  sessionId : String
  baseTimestamp : ℚ
  audioStartTime : ℚ
  clockOffset : ℚ
  isActive : Bool
deriving DecidableEq

/-- Subtitle show/hide event kinds emitted by `AudioSyncManager`. -/
inductive SubtitleEventKind where
  | showSubtitle
  | hideSubtitle
deriving DecidableEq

/-- A scheduled subtitle timer: the one-shot `setTimeout` installed by
`scheduleSubtitle`, recorded with the absolute local time at which it
fires. -/
structure SubtitleEvent where
  kind : SubtitleEventKind
  sessionId : String
  subtitle : SubtitleData
  time : ℚ
deriving DecidableEq

namespace AudioSyncManager

/-- `AudioSyncManager.calculatePlaybackTime` for one session (the source
throws on an unknown session id; here the session record is passed
directly).  The two `Date.now()` reads are modelled by the single
instant `now`.  Returns the possibly-updated session (baseline
establishment on the first packet) and the final playback time. -/
def calculatePlaybackTime (session : SyncSession) (packet : AudioPacket)
    (syncTimestamps : SyncTimestamps) (networkConditions : NetworkConditions)
    (now : ℚ) : SyncSession × ℚ :=
  -- if this is the first packet, establish timing baseline
  let session :=
    if session.audioStartTime = 0 then
      let processingDelay :=
        syncTimestamps.packetReceived - syncTimestamps.ttsGenerated
      -- JavaScript `networkConditions.avgLatency || 20`
      let networkLatency :=
        if networkConditions.avgLatency = 0 then 20
        else networkConditions.avgLatency
      let bufferTime : ℚ := 50
      { session with
          audioStartTime := now + bufferTime
          clockOffset := processingDelay + networkLatency }
    else session
  -- playbackTime in packet is relative to TTS generation
  let relativePlaybackTime := packet.playbackTime - packet.timestamp
  let absolutePlaybackTime := session.audioStartTime + relativePlaybackTime
  -- max 20ms jitter compensation
  let jitterCompensation := min (networkConditions.jitterMs * 2) 20
  let targetPlaybackTime := absolutePlaybackTime + jitterCompensation
  -- never schedule playback in the past: at least 5ms in the future
  let finalPlaybackTime := max targetPlaybackTime (now + 5)
  (session, finalPlaybackTime)

/-- `AudioSyncManager.scheduleSubtitle`: the list of one-shot subtitle
timers installed (a timer is installed only when its firing time is
strictly in the future; past events are silently skipped). -/
def scheduleSubtitle (sessionId : String) (subtitle : SubtitleData)
    (audioStartTime : ℚ) (now : ℚ) : List SubtitleEvent :=
  let showTime := audioStartTime + subtitle.startTime
  let hideTime := audioStartTime + subtitle.endTime
  (if now < showTime then
    [{ kind := SubtitleEventKind.showSubtitle
       sessionId := sessionId
       subtitle := subtitle
       time := showTime }]
  else []) ++
  (if now < hideTime then
    [{ kind := SubtitleEventKind.hideSubtitle
       sessionId := sessionId
       subtitle := subtitle
       time := hideTime }]
  else [])

/-- `AudioSyncManager.scheduleAudioChunk`: computes the playback time,
builds the `TimedAudioChunk`, and (when subtitles are present) installs
the subtitle timers anchored at the computed `playbackTime`.  Queue
insertion and the playback interval timer are orthogonal to the claims
and not returned.  Result: updated sync session, the timed chunk, and
the installed subtitle timers. -/
def scheduleAudioChunk (session : SyncSession) (packet : AudioPacket)
    (syncTimestamps : SyncTimestamps) (networkConditions : NetworkConditions)
    (subtitles : Option SubtitleData) (now : ℚ) :
    SyncSession × TimedAudioChunk × List SubtitleEvent :=
  let r := calculatePlaybackTime session packet syncTimestamps networkConditions now
  let session := r.1
  let playbackTime := r.2
  -- 32-bit PCM or 16-bit compressed
  let bytesPerSample : ℚ := if packet.format = AudioFormat.pcm then 4 else 2
  let samplesPerSecond := packet.sampleRate
  let totalSamples := (packet.audioData.length : ℚ) / bytesPerSample
  let durationMs := totalSamples / samplesPerSecond * 1000
  let timedChunk : TimedAudioChunk :=
    { sessionId := packet.sessionId
      audio := packet.audioData
      playbackTime := playbackTime
      duration := durationMs
      subtitles := subtitles
      sequenceNumber := packet.sequenceNumber }
  let events :=
    match subtitles with
    | some st => scheduleSubtitle packet.sessionId st playbackTime now
    | none => []
  (session, timedChunk, events)

end AudioSyncManager

/-- `types.ts` `JitterBufferConfig`. -/
structure JitterBufferConfig where
  targetBufferMs : ℚ
  minBufferMs : ℚ
  maxBufferMs : ℚ
  adaptiveMode : Bool
deriving DecidableEq

/-- `jitter-buffer.ts` `BufferedChunk` (`...chunk` spread modelled by a
nested `chunk` field). -/
structure BufferedChunk where
  chunk : TimedAudioChunk
  receivedAt : ℚ
  bufferTime : ℚ
deriving DecidableEq

/-- `jitter-buffer.ts` `BufferStatistics`. -/
structure BufferStatistics where
  avgBufferSize : ℚ
  maxBufferSize : ℚ
  underruns : ℚ
  overruns : ℚ
  droppedPackets : ℚ
  adaptations : ℚ
deriving DecidableEq

namespace JitterBuffer

/-- `JitterBuffer.calculateBufferTime`. -/
def calculateBufferTime (config : JitterBufferConfig)
    (networkConditions : NetworkConditions) : ℚ :=
  let bufferTime := config.targetBufferMs
  if config.adaptiveMode then
    -- increase buffer time based on network jitter and packet loss
    let jitterCompensation := min (networkConditions.jitterMs * 2) 100
    let lossCompensation := networkConditions.packetLoss * 50
    let bufferTime := bufferTime + jitterCompensation + lossCompensation
    -- clamp to configured limits
    max config.minBufferMs (min config.maxBufferMs bufferTime)
  else bufferTime

/-- `JitterBuffer.getMaxBufferChunks`. -/
def getMaxBufferChunks (config : JitterBufferConfig)
    (networkConditions : NetworkConditions) : ℤ :=
  let avgChunkDuration : ℚ := 20
  let maxBufferTime := calculateBufferTime config networkConditions * 2
  jsCeil (maxBufferTime / avgChunkDuration)

/-- The `sessionBuffer.splice(sessionBuffer.findIndex(c =>
c.playbackTime > chunk.playbackTime), 0, bufferedChunk)` insertion of
`JitterBuffer.addChunk`: insert before the first strictly later chunk,
push at the end otherwise. -/
def insertByPlaybackTime (c : BufferedChunk) :
    List BufferedChunk → List BufferedChunk
  | [] => [c]
  | x :: xs =>
      if c.chunk.playbackTime < x.chunk.playbackTime then c :: x :: xs
      else x :: insertByPlaybackTime c xs

/-- Per-session jitter-buffer state: the entries of the `buffer`,
`statistics` and `lastNetworkUpdate` maps for one session id. -/
structure SessionBufState where
  chunks : List BufferedChunk
  stats : BufferStatistics
  lastNetworkUpdate : ℚ
deriving DecidableEq

/-- `JitterBuffer.initializeSession` entries for one session
(`Date.now()` modelled by `now`). -/
def initSession (now : ℚ) : SessionBufState :=
  { chunks := []
    stats :=
      { avgBufferSize := 0
        maxBufferSize := 0
        underruns := 0
        overruns := 0
        droppedPackets := 0
        adaptations := 0 }
    lastNetworkUpdate := now }

/-- The decision part of `JitterBuffer.adaptBufferSize`: the new target
buffer (1.2 and 0.9 written as 6/5 and 9/10) and the statistics with the
`adaptations` counter bumped when a decision was taken. -/
def adaptTarget (config : JitterBufferConfig) (stats : BufferStatistics)
    (networkConditions : NetworkConditions) : ℚ × BufferStatistics :=
  -- increase buffer if experiencing underruns
  if 0 < stats.underruns then
    (min config.maxBufferMs (config.targetBufferMs * (6 / 5)),
      { stats with adaptations := stats.adaptations + 1 })
  -- decrease buffer if experiencing overruns and network is stable
  else if 0 < stats.overruns ∧ networkConditions.jitterMs < 10 then
    (max config.minBufferMs (config.targetBufferMs * (9 / 10)),
      { stats with adaptations := stats.adaptations + 1 })
  else (config.targetBufferMs, stats)

/-- `JitterBuffer.adaptBufferSize` (evaluated at most every 5 seconds).
Returns the updated shared config, session statistics and
`lastNetworkUpdate` entry. -/
def adaptBufferSize (config : JitterBufferConfig) (stats : BufferStatistics)
    (lastUpdate : ℚ) (networkConditions : NetworkConditions) (now : ℚ) :
    JitterBufferConfig × BufferStatistics × ℚ :=
  if now - lastUpdate < 5000 then (config, stats, lastUpdate)
  else
    let r := adaptTarget config stats networkConditions
    let newTargetBuffer := r.1
    -- apply adaptation
    let r' :=
      if newTargetBuffer ≠ config.targetBufferMs then
        ({ config with targetBufferMs := newTargetBuffer }, now)
      else (config, lastUpdate)
    -- reset counters after adaptation
    (r'.1, { r.2 with underruns := 0, overruns := 0 }, r'.2)

/-- `JitterBuffer.addChunk` for one session (playback-timer startup is
orthogonal to the modelled claims; `Date.now()` modelled by `now`).
Returns the updated shared config and session state. -/
def addChunk (config : JitterBufferConfig) (s : SessionBufState)
    (chunk : TimedAudioChunk) (networkConditions : NetworkConditions)
    (now : ℚ) : JitterBufferConfig × SessionBufState :=
  let bufferTime := calculateBufferTime config networkConditions
  -- check if this chunk is too late (arrived after its playback time)
  if chunk.playbackTime < now then
    (config,
      { s with
          stats :=
            { s.stats with droppedPackets := s.stats.droppedPackets + 1 } })
  else
    let bufferedChunk : BufferedChunk :=
      { chunk := chunk, receivedAt := now, bufferTime := bufferTime }
    -- insert chunk in correct position (sorted by playback time)
    let sessionBuffer := insertByPlaybackTime bufferedChunk s.chunks
    let stats :=
      { s.stats with
          maxBufferSize := max s.stats.maxBufferSize (sessionBuffer.length : ℚ)
          avgBufferSize :=
            s.stats.avgBufferSize * (19 / 20)
              + (sessionBuffer.length : ℚ) * (1 / 20) }
    -- handle buffer overrun: remove oldest chunk
    let r :=
      if getMaxBufferChunks config networkConditions < (sessionBuffer.length : ℤ) then
        (sessionBuffer.tail,
          { stats with
              overruns := stats.overruns + 1
              droppedPackets := stats.droppedPackets + 1 })
      else (sessionBuffer, stats)
    -- adapt buffer size if enabled
    if config.adaptiveMode then
      let a := adaptBufferSize config r.2 s.lastNetworkUpdate networkConditions now
      (a.1, { chunks := r.1, stats := a.2.1, lastNetworkUpdate := a.2.2 })
    else
      (config, { chunks := r.1, stats := r.2, lastNetworkUpdate := s.lastNetworkUpdate })

/-- The release loop of `JitterBuffer.processBuffer`: split off the
longest prefix of head chunks with `playbackTime + bufferTime ≤ now`
(these are emitted in order) from the remaining buffer. -/
def releaseReady (now : ℚ) : List BufferedChunk →
    List BufferedChunk × List BufferedChunk
  | [] => ([], [])
  | c :: cs =>
      if c.chunk.playbackTime + c.bufferTime ≤ now then
        let r := releaseReady now cs
        (c :: r.1, r.2)
      else ([], c :: cs)

/-- `JitterBuffer.processBuffer` for one session: underrun accounting on
an empty buffer, otherwise emit every ready head chunk (`playChunk`
events, returned in emission order). -/
def processBuffer (s : SessionBufState) (now : ℚ) :
    SessionBufState × List BufferedChunk :=
  if s.chunks = [] then
    ({ s with stats := { s.stats with underruns := s.stats.underruns + 1 } },
      [])
  else
    let r := releaseReady now s.chunks
    ({ s with chunks := r.2 }, r.1)

end JitterBuffer

namespace JitterBuffer

/-- `jitter-buffer.ts` `JitterBuffer` instance state: the shared
configuration and the per-session maps. -/
structure Instance where
  config : JitterBufferConfig
  buffer : List (String × List BufferedChunk)
  statistics : List (String × BufferStatistics)
  lastNetworkUpdate : List (String × ℚ)
deriving DecidableEq

/-- Instance-level `JitterBuffer.addChunk`: looks up the per-session
entries (returning unchanged on an uninitialized session, as the source
does), runs the per-session body, and stores the results back.  Inside
`adaptBufferSize` the source reads `this.lastNetworkUpdate.get(sessionId)
|| 0`, modelled by `getD 0`; the entry is stored back unconditionally,
which is observationally equal under that read. -/
def Instance.addChunk (jb : Instance) (sessionId : String)
    (chunk : TimedAudioChunk) (networkConditions : NetworkConditions)
    (now : ℚ) : Instance :=
  match mapGet jb.buffer sessionId, mapGet jb.statistics sessionId with
  | some sessionBuffer, some stats =>
      let lastUpdate := (mapGet jb.lastNetworkUpdate sessionId).getD 0
      let r := JitterBuffer.addChunk jb.config
        ⟨sessionBuffer, stats, lastUpdate⟩ chunk networkConditions now
      { config := r.1
        buffer := mapSet jb.buffer sessionId r.2.chunks
        statistics := mapSet jb.statistics sessionId r.2.stats
        lastNetworkUpdate :=
          mapSet jb.lastNetworkUpdate sessionId r.2.lastNetworkUpdate }
  | _, _ => jb

/-- One step of the per-session jitter-buffer interface: a chunk arrival
(`addChunk`) or a 5 ms playback tick (`processBuffer`), each stamped
with the local clock value at which it runs. -/
inductive JBOp where
  | add (now : ℚ) (chunk : TimedAudioChunk) (net : NetworkConditions)
  | tick (now : ℚ)
deriving DecidableEq

/-- The clock stamp of an operation. -/
def JBOp.time : JBOp → ℚ
  | .add now _ _ => now
  | .tick now => now

/-- Per-session jitter-buffer state together with the shared config and
the ghost trace of all chunks emitted so far by `playChunk` events, in
emission order. -/
structure JBState where
  config : JitterBufferConfig
  session : SessionBufState
  emitted : List BufferedChunk
deriving DecidableEq

/-- Interpretation of one operation. -/
def JBStep (s : JBState) : JBOp → JBState
  | .add now chunk net =>
      let r := addChunk s.config s.session chunk net now
      ⟨r.1, r.2, s.emitted⟩
  | .tick now =>
      let r := processBuffer s.session now
      ⟨s.config, r.1, s.emitted ++ r.2⟩

/-- Interpretation of a sequence of operations. -/
def JBRun (s : JBState) (ops : List JBOp) : JBState :=
  List.foldl JBStep s ops

/-- State right after `initializeSession` at local time `now₀`. -/
def JBInit (config : JitterBufferConfig) (now₀ : ℚ) : JBState :=
  ⟨config, initSession now₀, []⟩

/-- Sanity of a jitter-buffer configuration: all three sizes are
non-negative (the constructor defaults 100/50/300 satisfy this). -/
def WFConfig (config : JitterBufferConfig) : Prop :=
  0 ≤ config.targetBufferMs ∧ 0 ≤ config.minBufferMs ∧ 0 ≤ config.maxBufferMs

instance (config : JitterBufferConfig) : Decidable (WFConfig config) := by
  unfold WFConfig; infer_instance

end JitterBuffer

namespace JitterBuffer

/-- Ordering of buffered chunks by playback deadline. -/
def ChunkLE (a b : BufferedChunk) : Prop :=
  a.chunk.playbackTime ≤ b.chunk.playbackTime

instance (a b : BufferedChunk) : Decidable (ChunkLE a b) := by
  unfold ChunkLE; infer_instance

theorem mem_insertByPlaybackTime {c y : BufferedChunk}
    {l : List BufferedChunk} :
    y ∈ insertByPlaybackTime c l ↔ y = c ∨ y ∈ l := by
  induction l with
  | nil => simp [insertByPlaybackTime]
  | cons x xs ih =>
      by_cases h : c.chunk.playbackTime < x.chunk.playbackTime
      · simp [insertByPlaybackTime, h]
      · simp [insertByPlaybackTime, h, ih]
        tauto

theorem pairwise_insertByPlaybackTime {c : BufferedChunk}
    {l : List BufferedChunk} (hl : l.Pairwise ChunkLE) :
    (insertByPlaybackTime c l).Pairwise ChunkLE := by
  induction l with
  | nil => simp [insertByPlaybackTime, List.Pairwise]
  | cons x xs ih =>
      rcases List.pairwise_cons.mp hl with ⟨hx, hxs⟩
      by_cases h : c.chunk.playbackTime < x.chunk.playbackTime
      · rw [insertByPlaybackTime, if_pos h]
        refine List.pairwise_cons.mpr ⟨?_, hl⟩
        intro y hy
        rcases List.mem_cons.mp hy with rfl | hy
        · exact le_of_lt h
        · exact le_trans (le_of_lt h) (hx y hy)
      · rw [insertByPlaybackTime, if_neg h]
        refine List.pairwise_cons.mpr ⟨?_, ih hxs⟩
        intro y hy
        rcases mem_insertByPlaybackTime.mp hy with rfl | hy
        · exact le_of_not_lt h
        · exact hx y hy

theorem releaseReady_append (now : ℚ) (l : List BufferedChunk) :
    (releaseReady now l).1 ++ (releaseReady now l).2 = l := by
  induction l with
  | nil => simp [releaseReady]
  | cons c cs ih =>
      by_cases h : c.chunk.playbackTime + c.bufferTime ≤ now
      · simp [releaseReady, h, ih]
      · simp [releaseReady, h]

theorem releaseReady_emitted_ready {now : ℚ} {l : List BufferedChunk}
    {c : BufferedChunk} (hc : c ∈ (releaseReady now l).1) :
    c.chunk.playbackTime + c.bufferTime ≤ now := by
  induction l with
  | nil => simp [releaseReady] at hc
  | cons x xs ih =>
      by_cases h : x.chunk.playbackTime + x.bufferTime ≤ now
      · rw [releaseReady, if_pos h] at hc
        rcases List.mem_cons.mp hc with rfl | hc
        · exact h
        · exact ih hc
      · rw [releaseReady, if_neg h] at hc
        simp at hc

theorem releaseReady_rest_head {now : ℚ} {l : List BufferedChunk}
    {c : BufferedChunk} (hc : (releaseReady now l).2.head? = some c) :
    ¬(c.chunk.playbackTime + c.bufferTime ≤ now) := by
  induction l with
  | nil => simp [releaseReady] at hc
  | cons x xs ih =>
      by_cases h : x.chunk.playbackTime + x.bufferTime ≤ now
      · rw [releaseReady, if_pos h] at hc
        exact ih hc
      · rw [releaseReady, if_neg h] at hc
        simp at hc
        rw [← hc]
        exact h

theorem releaseReady_not_ready (now : ℚ) (l : List BufferedChunk)
    (h : ∀ c, l.head? = some c → ¬(c.chunk.playbackTime + c.bufferTime ≤ now)) :
    releaseReady now l = ([], l) := by
  cases l with
  | nil => simp [releaseReady]
  | cons c cs =>
      have := h c (by simp)
      simp [releaseReady, this]

theorem calculateBufferTime_nonneg {config : JitterBufferConfig}
    {net : NetworkConditions} (h : WFConfig config) :
    0 ≤ calculateBufferTime config net := by
  rcases h with ⟨ht, hmin, hmax⟩
  unfold calculateBufferTime
  by_cases ha : config.adaptiveMode
  · simp only [ha, if_true]
    exact le_trans hmin (le_max_left _ _)
  · simp only [ha, if_false]
    exact ht

theorem adaptBufferSize_WF {config : JitterBufferConfig}
    {stats : BufferStatistics} {lastUpdate : ℚ} {net : NetworkConditions}
    {now : ℚ} (h : WFConfig config) :
    WFConfig (adaptBufferSize config stats lastUpdate net now).1 := by
  obtain ⟨ht, hmin, hmax⟩ := h
  have htarget : 0 ≤ (adaptTarget config stats net).1 := by
    have h65 : 0 ≤ config.targetBufferMs * (6 / 5) :=
      mul_nonneg ht (by norm_num)
    unfold adaptTarget
    split_ifs with h1 h2
    · exact le_min hmax h65
    · exact le_trans hmin (le_max_left _ _)
    · exact ht
  unfold adaptBufferSize
  split_ifs with h1
  · exact ⟨ht, hmin, hmax⟩
  · dsimp only
    split_ifs with h2
    · exact ⟨htarget, hmin, hmax⟩
    · exact ⟨ht, hmin, hmax⟩

end JitterBuffer

namespace JitterBuffer

theorem addChunk_chunks_eq (config : JitterBufferConfig) (s : SessionBufState)
    (chunk : TimedAudioChunk) (net : NetworkConditions) (now : ℚ) :
    (addChunk config s chunk net now).2.chunks =
      if chunk.playbackTime < now then s.chunks
      else
        let sb := insertByPlaybackTime
          ⟨chunk, now, calculateBufferTime config net⟩ s.chunks
        if getMaxBufferChunks config net < (sb.length : ℤ) then sb.tail
        else sb := by
  unfold addChunk
  dsimp only
  split_ifs <;> rfl

theorem addChunk_stats_late (config : JitterBufferConfig)
    (s : SessionBufState) (chunk : TimedAudioChunk) (net : NetworkConditions)
    (now : ℚ) (h : chunk.playbackTime < now) :
    addChunk config s chunk net now =
      (config,
        { s with stats :=
            { s.stats with droppedPackets := s.stats.droppedPackets + 1 } }) := by
  unfold addChunk
  rw [if_pos h]

theorem mem_addChunk_chunks {config : JitterBufferConfig}
    {s : SessionBufState} {chunk : TimedAudioChunk} {net : NetworkConditions}
    {now : ℚ} {c : BufferedChunk}
    (hc : c ∈ (addChunk config s chunk net now).2.chunks) :
    c ∈ s.chunks ∨
      (¬chunk.playbackTime < now ∧
        c = ⟨chunk, now, calculateBufferTime config net⟩) := by
  rw [addChunk_chunks_eq] at hc
  by_cases h1 : chunk.playbackTime < now
  · rw [if_pos h1] at hc
    exact Or.inl hc
  · rw [if_neg h1] at hc
    dsimp only at hc
    have hc' : c ∈ insertByPlaybackTime
        ⟨chunk, now, calculateBufferTime config net⟩ s.chunks := by
      by_cases h2 : getMaxBufferChunks config net
          < ((insertByPlaybackTime
              ⟨chunk, now, calculateBufferTime config net⟩ s.chunks).length : ℤ)
      · rw [if_pos h2] at hc
        exact (List.tail_sublist _).subset hc
      · rw [if_neg h2] at hc
        exact hc
    rcases mem_insertByPlaybackTime.mp hc' with rfl | h
    · exact Or.inr ⟨h1, rfl⟩
    · exact Or.inl h

theorem addChunk_chunks_pairwise {config : JitterBufferConfig}
    {s : SessionBufState} {chunk : TimedAudioChunk} {net : NetworkConditions}
    {now : ℚ} (hp : s.chunks.Pairwise ChunkLE) :
    (addChunk config s chunk net now).2.chunks.Pairwise ChunkLE := by
  rw [addChunk_chunks_eq]
  by_cases h1 : chunk.playbackTime < now
  · rw [if_pos h1]; exact hp
  · rw [if_neg h1]
    dsimp only
    have hins := @pairwise_insertByPlaybackTime
      ⟨chunk, now, calculateBufferTime config net⟩ s.chunks hp
    split_ifs with h2
    · exact hins.sublist (List.tail_sublist _)
    · exact hins

theorem addChunk_WF {config : JitterBufferConfig} {s : SessionBufState}
    {chunk : TimedAudioChunk} {net : NetworkConditions} {now : ℚ}
    (h : WFConfig config) : WFConfig (addChunk config s chunk net now).1 := by
  unfold addChunk
  dsimp only
  split_ifs <;> first
    | exact h
    | exact adaptBufferSize_WF h

/-- The invariant carried along a jitter-buffer trace: the buffer is
sorted by deadline, the emission trace is sorted by deadline, buffered
hold times are non-negative, every emitted deadline is bounded by the
clock, and every emitted deadline is below every buffered deadline. -/
def JBInv (s : JBState) (t : ℚ) : Prop :=
  s.session.chunks.Pairwise ChunkLE ∧
  s.emitted.Pairwise ChunkLE ∧
  (∀ c ∈ s.session.chunks, 0 ≤ c.bufferTime) ∧
  (∀ e ∈ s.emitted, e.chunk.playbackTime ≤ t) ∧
  (∀ e ∈ s.emitted, ∀ c ∈ s.session.chunks, ChunkLE e c) ∧
  WFConfig s.config

theorem JBInv_step {s : JBState} {t : ℚ} {op : JBOp} (hinv : JBInv s t)
    (hle : t ≤ op.time) : JBInv (JBStep s op) op.time := by
  obtain ⟨hpair, hepair, hbt, het, hec, hwf⟩ := hinv
  cases op with
  | add now chunk net =>
      simp only [JBOp.time] at hle
      refine ⟨addChunk_chunks_pairwise hpair, hepair, ?_, ?_, ?_, addChunk_WF hwf⟩
      · intro c hc
        rcases mem_addChunk_chunks hc with hc | ⟨-, rfl⟩
        · exact hbt c hc
        · exact calculateBufferTime_nonneg hwf
      · intro e he
        exact le_trans (het e he) hle
      · intro e he c hc
        rcases mem_addChunk_chunks hc with hc | ⟨hlate, rfl⟩
        · exact hec e he c hc
        · exact le_trans (le_trans (het e he) hle) (le_of_not_lt hlate)
  | tick now =>
      simp only [JBOp.time] at hle ⊢
      simp only [JBStep]
      unfold processBuffer
      by_cases hemp : s.session.chunks = []
      · rw [if_pos hemp]
        refine ⟨hpair, by simpa using hepair, hbt, ?_, ?_, hwf⟩
        · intro e he
          simp at he
          exact le_trans (het e he) hle
        · intro e he c hc
          simp at he
          exact hec e he c hc
      · rw [if_neg hemp]
        dsimp only
        have hsplit := releaseReady_append now s.session.chunks
        have hpair' : ((releaseReady now s.session.chunks).1 ++
            (releaseReady now s.session.chunks).2).Pairwise ChunkLE := by
          rw [hsplit]; exact hpair
        rw [List.pairwise_append] at hpair'
        obtain ⟨hem, hrest, hcross⟩ := hpair'
        have hmem_em : ∀ e ∈ (releaseReady now s.session.chunks).1,
            e ∈ s.session.chunks := by
          intro e he
          rw [← hsplit]
          exact List.mem_append_left _ he
        have hmem_rest : ∀ c ∈ (releaseReady now s.session.chunks).2,
            c ∈ s.session.chunks := by
          intro c hc
          rw [← hsplit]
          exact List.mem_append_right _ hc
        refine ⟨hrest, ?_, ?_, ?_, ?_, hwf⟩
        · rw [List.pairwise_append]
          exact ⟨hepair, hem, fun a ha b hb => hec a ha b (hmem_em b hb)⟩
        · intro c hc
          exact hbt c (hmem_rest c hc)
        · intro e he
          rcases List.mem_append.mp he with he | he
          · exact le_trans (het e he) hle
          · have h1 := releaseReady_emitted_ready he
            have h2 := hbt e (hmem_em e he)
            linarith
        · intro e he c hc
          rcases List.mem_append.mp he with he | he
          · exact hec e he c (hmem_rest c hc)
          · exact hcross e he c hc

theorem JBInv_run {ops : List JBOp} :
    ∀ {s : JBState} {t : ℚ}, JBInv s t →
      (t :: ops.map JBOp.time).Chain' (· ≤ ·) →
      ∃ t', JBInv (JBRun s ops) t' := by
  induction ops with
  | nil =>
      intro s t hinv _
      exact ⟨t, hinv⟩
  | cons op rest ih =>
      intro s t hinv hchain
      rw [List.map_cons, List.chain'_cons] at hchain
      obtain ⟨h1, h2⟩ := hchain
      exact ih (JBInv_step hinv h1) h2

theorem JBInv_init (config : JitterBufferConfig) (now₀ : ℚ)
    (hwf : WFConfig config) (t : ℚ) : JBInv (JBInit config now₀) t := by
  refine ⟨?_, ?_, ?_, ?_, ?_, hwf⟩ <;>
    simp [JBInit, initSession]

end JitterBuffer

/-! Concrete sample inputs used by witnesses and counterexamples. -/

/-- Remote endpoint matching the registered session `"s"`. -/
def rinfoGood : RemoteInfo := ⟨"10.0.0.1", 4000⟩

/-- Remote endpoint different from the registered one. -/
def rinfoBad : RemoteInfo := ⟨"10.0.0.2", 9999⟩

/-- A server with one freshly registered session `"s"` at endpoint
`10.0.0.1:4000`, registered at local time 0. -/
def srvFresh : UDPAudioServer :=
  UDPAudioServer.expectSession ⟨[]⟩ "s" "10.0.0.1" 4000 0

/-- Packet with sequence number 0 for session `"s"`. -/
def pktSeq0 : AudioPacket := ⟨"s", 0, 0, 0, [1, 2], AudioFormat.pcm, 44100, false⟩

/-- Packet with sequence number 2 for session `"s"`. -/
def pktSeq2 : AudioPacket := ⟨"s", 2, 5, 5, [1, 2], AudioFormat.pcm, 44100, false⟩

/-- Packet with sequence number 4 for session `"s"`. -/
def pktSeq4 : AudioPacket := ⟨"s", 4, 0, 0, [1, 2], AudioFormat.pcm, 44100, false⟩

/-- Packet with sequence number 5 for session `"s"`. -/
def pktSeq5 : AudioPacket := ⟨"s", 5, 0, 0, [1, 2], AudioFormat.pcm, 44100, false⟩

/-- C1 (counterexample): the claimed cursor update
`expected' = max(prior_expected, s+1)` fails on the code.  Starting from
a fresh session, a packet with sequence 4 drives the cursor to 5; a
subsequent stale packet with sequence 2 (so `s+1 = 3 < 5`) rewinds the
cursor to 3 instead of leaving it at `max(5, 3) = 5`. -/
theorem c1_counterexample :
    (mapGet (UDPAudioServer.handleIncomingPacket srvFresh pktSeq4 10
        rinfoGood).1.activeSessions "s").map (fun s => s.expectedSequence)
      = some 5 ∧
    (mapGet (UDPAudioServer.handleIncomingPacket
        (UDPAudioServer.handleIncomingPacket srvFresh pktSeq4 10 rinfoGood).1
        pktSeq2 20 rinfoGood).1.activeSessions "s").map
        (fun s => s.expectedSequence) = some 3 ∧
    (3 : ℚ) ≠ max 5 (2 + 1) := by
  refine ⟨?_, ?_, by norm_num⟩ <;>
    norm_num [UDPAudioServer.handleIncomingPacket,
      UDPAudioServer.updateSessionStatistics, UDPAudioServer.expectSession,
      UDPAudioServer.endSession, mapGet, mapSet, srvFresh, pktSeq4, pktSeq2,
      rinfoGood]

/-- C1 (amended): for every accepted non-final packet for a registered
session, the session's expected-sequence cursor after processing is
unconditionally `s + 1` (a stale packet rewinds the cursor rather than
leaving it unchanged), and the lost-packet counter grows by
`s − prior_expected` exactly when that difference is positive. -/
theorem c1_theorem (server : UDPAudioServer) (packet : AudioPacket)
    (receiveTime : ℚ) (rinfo : RemoteInfo) (sess : ActiveSession)
    (hfind : mapGet server.activeSessions packet.sessionId = some sess)
    (hlast : packet.isLast = false) :
    ∃ sess',
      mapGet (UDPAudioServer.handleIncomingPacket server packet receiveTime
          rinfo).1.activeSessions packet.sessionId = some sess' ∧
      sess'.expectedSequence = packet.sequenceNumber + 1 ∧
      sess'.statistics.lostPackets = sess.statistics.lostPackets +
        (if 0 < packet.sequenceNumber - sess.expectedSequence
         then packet.sequenceNumber - sess.expectedSequence else 0) := by
  unfold UDPAudioServer.handleIncomingPacket
  rw [hfind]
  simp only [UDPAudioServer.updateSessionStatistics, hlast, Bool.false_eq_true,
    if_false]
  refine ⟨_, mapGet_mapSet_self _ _ _, rfl, ?_⟩
  by_cases hne : packet.sequenceNumber = sess.expectedSequence
  · simp [hne]
  · simp only [hne, ne_eq, not_false_eq_true, if_true]
    by_cases hpos : 0 < packet.sequenceNumber - sess.expectedSequence
    · simp [hpos]
    · simp [hpos]

/-- The session record installed by registering `"s"` at `10.0.0.1:4000`
at local time 0. -/
def sessFresh : ActiveSession :=
  { sessionId := "s"
    remoteAddress := "10.0.0.1"
    remotePort := 4000
    startTime := 0
    lastPacketTime := 0
    expectedSequence := 0
    statistics :=
      { totalPackets := 0, lostPackets := 0, avgLatency := 0, jitterMs := 0
        audioDuration := 0, startTime := 0, endTime := 0 }
    networkConditions :=
      { avgLatency := 0, jitterMs := 0, packetLoss := 0, bandwidth := 0 } }

/-- C1 (witness): instantiation of `c1_theorem` on the fresh session
`"s"` and the concrete packet with sequence 4. -/
theorem c1_witness :
    ∃ sess',
      mapGet (UDPAudioServer.handleIncomingPacket srvFresh pktSeq4 10
          rinfoGood).1.activeSessions pktSeq4.sessionId = some sess' ∧
      sess'.expectedSequence = pktSeq4.sequenceNumber + 1 ∧
      sess'.statistics.lostPackets = sessFresh.statistics.lostPackets +
        (if 0 < pktSeq4.sequenceNumber - sessFresh.expectedSequence
         then pktSeq4.sequenceNumber - sessFresh.expectedSequence else 0) :=
  c1_theorem srvFresh pktSeq4 10 rinfoGood sessFresh
    (by norm_num [srvFresh, UDPAudioServer.expectSession, mapGet, mapSet,
      pktSeq4, sessFresh])
    (by norm_num [pktSeq4])

/-- C2 (counterexample): a valid packet for the registered session `"s"`
arriving from `10.0.0.2:9999` — not the registered endpoint
`10.0.0.1:4000` — is not dropped: an `audioPacket` event is emitted and
the session's statistics advance, contradicting the claimed
endpoint-mismatch rejection. -/
theorem c2_counterexample :
    rinfoBad.address ≠ rinfoGood.address ∧
    (UDPAudioServer.handleIncomingPacket srvFresh pktSeq0 10
        rinfoBad).2.length = 1 ∧
    (mapGet (UDPAudioServer.handleIncomingPacket srvFresh pktSeq0 10
        rinfoBad).1.activeSessions "s").map
        (fun s => s.statistics.totalPackets) = some 1 := by
  refine ⟨by simp [rinfoBad, rinfoGood], ?_, ?_⟩ <;>
    norm_num [UDPAudioServer.handleIncomingPacket,
      UDPAudioServer.updateSessionStatistics, UDPAudioServer.expectSession,
      UDPAudioServer.endSession, mapGet, mapSet, srvFresh, pktSeq0, rinfoBad]

/-- C2 (amended): the receiver performs no source-endpoint check at all:
`handleIncomingPacket` ignores the datagram's remote info, so its result
(state and emitted events) is identical for any two source endpoints. -/
theorem c2_theorem (server : UDPAudioServer) (packet : AudioPacket)
    (receiveTime : ℚ) (rinfo rinfo' : RemoteInfo) :
    UDPAudioServer.handleIncomingPacket server packet receiveTime rinfo =
      UDPAudioServer.handleIncomingPacket server packet receiveTime rinfo' :=
  rfl

/-- C6 (counterexample): the claimed `packet_loss_ratio =
lost / (lost + received)` fails on the code.  A first packet with
sequence 5 on a fresh session leaves `lostPackets = 5` and
`totalPackets = 1`, but the stored ratio is `0` (statistics are updated
before loss accounting, dividing by received-only), not the claimed
`5 / (5 + 1)`. -/
theorem c6_counterexample :
    (mapGet (UDPAudioServer.handleIncomingPacket srvFresh pktSeq5 100
        rinfoGood).1.activeSessions "s").map
        (fun s => (s.statistics.lostPackets, s.statistics.totalPackets,
          s.networkConditions.packetLoss)) = some (5, 1, 0) ∧
    (0 : ℚ) ≠ 5 / (5 + 1) := by
  refine ⟨?_, by norm_num⟩
  norm_num [UDPAudioServer.handleIncomingPacket,
    UDPAudioServer.updateSessionStatistics, UDPAudioServer.expectSession,
    UDPAudioServer.endSession, mapGet, mapSet, srvFresh, pktSeq5, rinfoGood]

/-- C6 (amended): after an accepted non-final packet, the stored
`packetLoss` equals `lost_before / (received_before + 1)`: the loss count
as it stood before this packet's own loss accounting, divided by the
number of packets actually received including this one — not
`lost / (lost + received)`. -/
theorem c6_theorem (server : UDPAudioServer) (packet : AudioPacket)
    (receiveTime : ℚ) (rinfo : RemoteInfo) (sess : ActiveSession)
    (hfind : mapGet server.activeSessions packet.sessionId = some sess)
    (hlast : packet.isLast = false) :
    ∃ sess',
      mapGet (UDPAudioServer.handleIncomingPacket server packet receiveTime
          rinfo).1.activeSessions packet.sessionId = some sess' ∧
      sess'.networkConditions.packetLoss =
        sess.statistics.lostPackets / (sess.statistics.totalPackets + 1) := by
  unfold UDPAudioServer.handleIncomingPacket
  rw [hfind]
  simp only [UDPAudioServer.updateSessionStatistics, hlast, Bool.false_eq_true,
    if_false]
  refine ⟨_, mapGet_mapSet_self _ _ _, ?_⟩
  by_cases hne : packet.sequenceNumber = sess.expectedSequence
  · simp [hne]
  · simp only [hne, ne_eq, not_false_eq_true, if_true]
    by_cases hpos : 0 < packet.sequenceNumber - sess.expectedSequence
    · simp [hpos]
    · simp [hpos]

/-- C6 (witness): instantiation of `c6_theorem` on the fresh session
`"s"` and the concrete packet with sequence 5. -/
theorem c6_witness :
    ∃ sess',
      mapGet (UDPAudioServer.handleIncomingPacket srvFresh pktSeq5 100
          rinfoGood).1.activeSessions pktSeq5.sessionId = some sess' ∧
      sess'.networkConditions.packetLoss =
        sessFresh.statistics.lostPackets /
          (sessFresh.statistics.totalPackets + 1) :=
  c6_theorem srvFresh pktSeq5 100 rinfoGood sessFresh
    (by norm_num [srvFresh, UDPAudioServer.expectSession, mapGet, mapSet,
      pktSeq5, sessFresh])
    (by norm_num [pktSeq5])

/-- C9 (counterexample): re-registering session `"s"` with the same id
and the same endpoint after one packet has been received resets the
cumulative statistics: `totalPackets` was 1 before the repeat
registration and is 0 after it, contradicting the claimed preservation
of counters. -/
theorem c9_counterexample :
    (mapGet (UDPAudioServer.handleIncomingPacket srvFresh pktSeq0 10
        rinfoGood).1.activeSessions "s").map
        (fun s => s.statistics.totalPackets) = some 1 ∧
    (mapGet (UDPAudioServer.expectSession
        (UDPAudioServer.handleIncomingPacket srvFresh pktSeq0 10 rinfoGood).1
        "s" "10.0.0.1" 4000 60).activeSessions "s").map
        (fun s => s.statistics.totalPackets) = some 0 ∧
    (0 : ℚ) ≠ 1 := by
  refine ⟨?_, ?_, by norm_num⟩ <;>
    norm_num [UDPAudioServer.handleIncomingPacket,
      UDPAudioServer.updateSessionStatistics, UDPAudioServer.expectSession,
      UDPAudioServer.endSession, mapGet, mapSet, srvFresh, pktSeq0, rinfoGood]

/-- C9 (amended): `expectSession` always installs a completely fresh
session record — zeroed statistics, expected-sequence cursor 0 and
start time equal to the registration time — regardless of any state the
registry previously held for that id (there are no expected-format
fields on this registry at all). -/
theorem c9_theorem (server : UDPAudioServer) (sessionId remoteAddress : String)
    (remotePort now : ℚ) :
    mapGet (UDPAudioServer.expectSession server sessionId remoteAddress
        remotePort now).activeSessions sessionId =
      some
        { sessionId := sessionId
          remoteAddress := remoteAddress
          remotePort := remotePort
          startTime := now
          lastPacketTime := now
          expectedSequence := 0
          statistics :=
            { totalPackets := 0, lostPackets := 0, avgLatency := 0
              jitterMs := 0, audioDuration := 0, startTime := now
              endTime := 0 }
          networkConditions :=
            { avgLatency := 0, jitterMs := 0, packetLoss := 0
              bandwidth := 0 } } := by
  unfold UDPAudioServer.expectSession
  exact mapGet_mapSet_self _ _ _

/-- Sync session for `"s"` whose timing baseline is already established
(`audioStartTime = 1000`). -/
def syncSess : SyncSession := ⟨"s", 0, 1000, 0, true⟩

/-- Packet whose playback time is 500 ms after its TTS timestamp. -/
def pktRel500 : AudioPacket := ⟨"s", 1, 0, 500, [], AudioFormat.pcm, 44100, false⟩

/-- Sync timestamps for `pktRel500` received at local time 100. -/
def syncTs500 : SyncTimestamps := ⟨0, 0, 100, 500, none⟩

/-- Network conditions with 4 ms jitter. -/
def netJitter4 : NetworkConditions := ⟨0, 4, 0, 0⟩

/-- Network conditions with no jitter and no loss. -/
def netQuiet : NetworkConditions := ⟨0, 0, 0, 0⟩

/-- C3: for every packet processed after the session's timing baseline is
established, `calculatePlaybackTime` returns exactly
`max(audio_start_local + (playback_ts − tts_ts) + min(2·jitter, 20),
now + 5)`: jitter compensation capped at 20 ms and the deadline floored
5 ms into the future. -/
theorem c3_theorem (session : SyncSession) (packet : AudioPacket)
    (syncTimestamps : SyncTimestamps) (net : NetworkConditions) (now : ℚ)
    (h : session.audioStartTime ≠ 0) :
    (AudioSyncManager.calculatePlaybackTime session packet syncTimestamps
        net now).2 =
      max (session.audioStartTime + (packet.playbackTime - packet.timestamp)
        + min (2 * net.jitterMs) 20) (now + 5) := by
  unfold AudioSyncManager.calculatePlaybackTime
  dsimp only
  rw [if_neg h, mul_comm net.jitterMs 2]

/-- C3 (witness): instantiation of `c3_theorem` on a session with
baseline 1000 and the concrete packet with 500 ms relative playback. -/
theorem c3_witness :
    (AudioSyncManager.calculatePlaybackTime syncSess pktRel500 syncTs500
        netJitter4 100).2 =
      max (syncSess.audioStartTime
        + (pktRel500.playbackTime - pktRel500.timestamp)
        + min (2 * netJitter4.jitterMs) 20) (100 + 5) :=
  c3_theorem syncSess pktRel500 syncTs500 netJitter4 100
    (by norm_num [syncSess])

/-- Subtitle record with offsets 0–500 ms. -/
def subHello : SubtitleData := ⟨"hello", 0, 500, 0⟩

/-- C7 (counterexample): with baseline `audio_start_local = 1000` and a
chunk whose computed deadline is 1500, the subtitle show timer is
installed at 1500 = chunk deadline + start offset, not at the claimed
`audio_start_local + start_time = 1000`. -/
theorem c7_counterexample :
    ((AudioSyncManager.scheduleAudioChunk syncSess pktRel500 syncTs500
        netQuiet (some subHello) 100).2.2.map (fun e => e.time))
      = [1500, 2000] ∧
    (1500 : ℚ) ≠ syncSess.audioStartTime + subHello.startTime := by
  constructor
  · norm_num [AudioSyncManager.scheduleAudioChunk,
      AudioSyncManager.calculatePlaybackTime, AudioSyncManager.scheduleSubtitle,
      syncSess, pktRel500, syncTs500, netQuiet, subHello]
  · norm_num [syncSess, subHello]

/-- C7 (amended): subtitle timers are anchored to the chunk's own
computed playback deadline `d`, not the session baseline: every installed
event fires strictly after `now`, the show event (when installed) fires
at `d + start_time` and the hide event at `d + end_time`; an event whose
time is not strictly in the future is skipped entirely, never emitted
with a late flag. -/
theorem c7_theorem (session : SyncSession) (packet : AudioPacket)
    (syncTimestamps : SyncTimestamps) (net : NetworkConditions)
    (st : SubtitleData) (now : ℚ) :
    (∀ e ∈ (AudioSyncManager.scheduleAudioChunk session packet syncTimestamps
        net (some st) now).2.2,
      now < e.time ∧
      (e.kind = SubtitleEventKind.showSubtitle →
        e.time = (AudioSyncManager.calculatePlaybackTime session packet
          syncTimestamps net now).2 + st.startTime) ∧
      (e.kind = SubtitleEventKind.hideSubtitle →
        e.time = (AudioSyncManager.calculatePlaybackTime session packet
          syncTimestamps net now).2 + st.endTime)) ∧
    ((now < (AudioSyncManager.calculatePlaybackTime session packet
        syncTimestamps net now).2 + st.startTime) ↔
      ∃ e ∈ (AudioSyncManager.scheduleAudioChunk session packet syncTimestamps
        net (some st) now).2.2, e.kind = SubtitleEventKind.showSubtitle) ∧
    ((now < (AudioSyncManager.calculatePlaybackTime session packet
        syncTimestamps net now).2 + st.endTime) ↔
      ∃ e ∈ (AudioSyncManager.scheduleAudioChunk session packet syncTimestamps
        net (some st) now).2.2, e.kind = SubtitleEventKind.hideSubtitle) := by
  have hev : (AudioSyncManager.scheduleAudioChunk session packet syncTimestamps
      net (some st) now).2.2 =
      AudioSyncManager.scheduleSubtitle packet.sessionId st
        (AudioSyncManager.calculatePlaybackTime session packet syncTimestamps
          net now).2 now := rfl
  rw [hev]
  unfold AudioSyncManager.scheduleSubtitle
  dsimp only
  by_cases h1 : now < (AudioSyncManager.calculatePlaybackTime session packet
      syncTimestamps net now).2 + st.startTime <;>
    by_cases h2 : now < (AudioSyncManager.calculatePlaybackTime session packet
        syncTimestamps net now).2 + st.endTime <;>
    simp [h1, h2]

/-- C7 (witness): from `c7_theorem` at the concrete inputs of the
counterexample, a show timer is installed (its time is strictly after
`now = 100`). -/
theorem c7_witness :
    ∃ e ∈ (AudioSyncManager.scheduleAudioChunk syncSess pktRel500 syncTs500
        netQuiet (some subHello) 100).2.2,
      e.kind = SubtitleEventKind.showSubtitle :=
  (c7_theorem syncSess pktRel500 syncTs500 netQuiet subHello 100).2.1.mp
    (by norm_num [AudioSyncManager.calculatePlaybackTime, syncSess, pktRel500,
      syncTs500, netQuiet, subHello])

namespace JitterBuffer

theorem processBuffer_chunks_subset {s : SessionBufState} {now : ℚ}
    {c : BufferedChunk} (hc : c ∈ (processBuffer s now).1.chunks) :
    c ∈ s.chunks := by
  unfold processBuffer at hc
  by_cases hemp : s.chunks = []
  · rw [if_pos hemp] at hc
    exact hc
  · rw [if_neg hemp] at hc
    dsimp only at hc
    rw [← releaseReady_append now s.chunks]
    exact List.mem_append_right _ hc

theorem processBuffer_emitted_subset {s : SessionBufState} {now : ℚ}
    {c : BufferedChunk} (hc : c ∈ (processBuffer s now).2) :
    c ∈ s.chunks := by
  unfold processBuffer at hc
  by_cases hemp : s.chunks = []
  · rw [if_pos hemp] at hc
    simp at hc
  · rw [if_neg hemp] at hc
    dsimp only at hc
    rw [← releaseReady_append now s.chunks]
    exact List.mem_append_left _ hc

theorem processBuffer_snd_eq (s : SessionBufState) (now : ℚ) :
    (processBuffer s now).2 =
      if s.chunks = [] then [] else (releaseReady now s.chunks).1 := by
  unfold processBuffer
  split_ifs <;> rfl

theorem processBuffer_fst_chunks (s : SessionBufState) (now : ℚ) :
    (processBuffer s now).1.chunks =
      if s.chunks = [] then s.chunks else (releaseReady now s.chunks).2 := by
  unfold processBuffer
  split_ifs <;> rfl

/-- When the jitter/loss-compensated buffer time lies inside the
`[min, max]` clamp, `calculateBufferTime` in adaptive mode returns it
unclamped. -/
theorem calculateBufferTime_inside {config : JitterBufferConfig}
    {net : NetworkConditions} (hadaptive : config.adaptiveMode = true)
    (hmin : config.minBufferMs ≤ config.targetBufferMs +
      (min (net.jitterMs * 2) 100 + net.packetLoss * 50))
    (hmax : config.targetBufferMs +
      (min (net.jitterMs * 2) 100 + net.packetLoss * 50) ≤
        config.maxBufferMs) :
    calculateBufferTime config net = config.targetBufferMs +
      (min (net.jitterMs * 2) 100 + net.packetLoss * 50) := by
  unfold calculateBufferTime
  dsimp only
  rw [if_pos hadaptive]
  have h1 : min config.maxBufferMs
      (config.targetBufferMs + min (net.jitterMs * 2) 100
        + net.packetLoss * 50) =
      config.targetBufferMs + min (net.jitterMs * 2) 100
        + net.packetLoss * 50 :=
    min_eq_right (by linarith)
  rw [h1, max_eq_right (by linarith)]
  ring

/-- Every chunk on the emission trace of a run either was on the trace
already, sat in the buffer, or was presented by some `add` operation of
the run. -/
theorem JBRun_emitted_sources {ops : List JBOp} :
    ∀ {s : JBState} {e : BufferedChunk}, e ∈ (JBRun s ops).emitted →
      e ∈ s.emitted ∨ e ∈ s.session.chunks ∨
        ∃ t n, JBOp.add t e.chunk n ∈ ops := by
  induction ops with
  | nil =>
      intro s e he
      exact Or.inl he
  | cons op rest ih =>
      intro s e he
      rcases ih he with he' | he' | ⟨t, n, ht⟩
      · cases op with
        | add now chunk net =>
            exact Or.inl he'
        | tick now =>
            simp only [JBStep] at he'
            rcases List.mem_append.mp he' with h | h
            · exact Or.inl h
            · exact Or.inr (Or.inl (processBuffer_emitted_subset h))
      · cases op with
        | add now chunk net =>
            rcases mem_addChunk_chunks he' with h | ⟨-, rfl⟩
            · exact Or.inr (Or.inl h)
            · exact Or.inr (Or.inr ⟨now, net, List.mem_cons_self _ _⟩)
        | tick now =>
            exact Or.inr (Or.inl (processBuffer_chunks_subset he'))
      · exact Or.inr (Or.inr ⟨t, n, List.mem_cons_of_mem _ ht⟩)

/-- Under an accepted (non-late) chunk in adaptive mode, the shared
config returned by `addChunk` is the one produced by `adaptBufferSize`,
fed with statistics whose `underruns` field is untouched by the
insertion-time bookkeeping. -/
theorem addChunk_config_adaptive {config : JitterBufferConfig}
    {s : SessionBufState} {chunk : TimedAudioChunk} {net : NetworkConditions}
    {now : ℚ} (hnotlate : ¬chunk.playbackTime < now)
    (hadaptive : config.adaptiveMode = true) :
    ∃ stats' : BufferStatistics, stats'.underruns = s.stats.underruns ∧
      (addChunk config s chunk net now).1 =
        (adaptBufferSize config stats' s.lastNetworkUpdate net now).1 := by
  unfold addChunk
  rw [if_neg hnotlate]
  dsimp only
  rw [if_pos hadaptive]
  by_cases hov : getMaxBufferChunks config net <
      ((insertByPlaybackTime
        ⟨chunk, now, calculateBufferTime config net⟩ s.chunks).length : ℤ)
  · rw [if_pos hov]
    dsimp only
    refine ⟨_, ?_, rfl⟩
    rfl
  · rw [if_neg hov]
    dsimp only
    refine ⟨_, ?_, rfl⟩
    rfl

/-- When the adaptation window is open, underruns were observed and the
6/5-scaled target stays below the maximum, `adaptBufferSize` scales the
shared target by exactly 6/5. -/
theorem adaptBufferSize_increase {config : JitterBufferConfig}
    {stats : BufferStatistics} {lastUpdate : ℚ} {net : NetworkConditions}
    {now : ℚ} (hwin : ¬now - lastUpdate < 5000)
    (hunder : 0 < stats.underruns)
    (hmaxroom : config.targetBufferMs * (6 / 5) ≤ config.maxBufferMs)
    (hpos : 0 < config.targetBufferMs) :
    (adaptBufferSize config stats lastUpdate net now).1 =
      { config with targetBufferMs := config.targetBufferMs * (6 / 5) } := by
  unfold adaptBufferSize
  rw [if_neg hwin]
  dsimp only
  unfold adaptTarget
  rw [if_pos hunder]
  dsimp only
  rw [min_eq_right hmaxroom]
  have hne : config.targetBufferMs * (6 / 5) ≠ config.targetBufferMs := by
    intro h
    nlinarith
  rw [if_pos hne]

end JitterBuffer

/-- Default jitter-buffer configuration (constructor defaults 100/50/300,
adaptive). -/
def jbConfigDefault : JitterBufferConfig := ⟨100, 50, 300, true⟩

/-- Network conditions with 60 ms jitter. -/
def netJitter60 : NetworkConditions := ⟨0, 60, 0, 0⟩

/-- Chunk with deadline 95 for session `"s"`. -/
def chunk95 : TimedAudioChunk := ⟨"s", [], 95, 20, none, 1⟩

/-- Chunk with deadline 100 for session `"s"`. -/
def chunk100 : TimedAudioChunk := ⟨"s", [], 100, 20, none, 2⟩

/-- Chunk with deadline 50 for session `"s"` (late at clock 100). -/
def chunk50 : TimedAudioChunk := ⟨"s", [], 50, 20, none, 3⟩

/-- C4: a chunk whose deadline is already in the past at insert is not
enqueued: the buffer and all other state are unchanged, the drop counter
grows by exactly one, and no later run that never re-presents that chunk
ever emits it through a `playChunk` event. -/
theorem c4_theorem (config : JitterBufferConfig) (s : JitterBuffer.SessionBufState)
    (chunk : TimedAudioChunk) (net : NetworkConditions) (now : ℚ)
    (hlate : chunk.playbackTime < now) :
    JitterBuffer.addChunk config s chunk net now =
      (config,
        { s with stats :=
            { s.stats with droppedPackets := s.stats.droppedPackets + 1 } }) ∧
    ∀ (emitted : List BufferedChunk) (ops : List JitterBuffer.JBOp),
      chunk ∉ s.chunks.map (fun c => c.chunk) →
      chunk ∉ emitted.map (fun c => c.chunk) →
      (∀ t c n, JitterBuffer.JBOp.add t c n ∈ ops → c ≠ chunk) →
      chunk ∉ (JitterBuffer.JBRun
        ⟨(JitterBuffer.addChunk config s chunk net now).1,
          (JitterBuffer.addChunk config s chunk net now).2, emitted⟩
        ops).emitted.map (fun c => c.chunk) := by
  have hframe := JitterBuffer.addChunk_stats_late config s chunk net now hlate
  refine ⟨hframe, ?_⟩
  intro emitted ops hbuf hemit hops hmem
  rcases List.mem_map.mp hmem with ⟨e, he, hech⟩
  rcases JitterBuffer.JBRun_emitted_sources he with h | h | ⟨t, n, ht⟩
  · exact hemit (List.mem_map.mpr ⟨e, h, hech⟩)
  · rw [hframe] at h
    exact hbuf (List.mem_map.mpr ⟨e, h, hech⟩)
  · rw [hech] at ht
    exact hops t chunk n ht rfl

/-- C4 (witness): instantiation of `c4_theorem` on an empty buffer and
the concrete chunk with deadline 50 presented at clock 100. -/
theorem c4_witness :
    JitterBuffer.addChunk jbConfigDefault (JitterBuffer.initSession 0)
        chunk50 netQuiet 100 =
      (jbConfigDefault,
        { JitterBuffer.initSession 0 with stats :=
            { (JitterBuffer.initSession 0).stats with
                droppedPackets :=
                  (JitterBuffer.initSession 0).stats.droppedPackets + 1 } }) ∧
    chunk50 ∉ (JitterBuffer.JBRun
      ⟨(JitterBuffer.addChunk jbConfigDefault (JitterBuffer.initSession 0)
          chunk50 netQuiet 100).1,
        (JitterBuffer.addChunk jbConfigDefault (JitterBuffer.initSession 0)
          chunk50 netQuiet 100).2, []⟩
      [JitterBuffer.JBOp.tick 200]).emitted.map (fun c => c.chunk) := by
  have h := c4_theorem jbConfigDefault (JitterBuffer.initSession 0) chunk50
    netQuiet 100 (by norm_num [chunk50])
  exact ⟨h.1, h.2 [] [JitterBuffer.JBOp.tick 200]
    (by simp [JitterBuffer.initSession]) (by simp) (by simp)⟩

/-- C5: over every interleaving of chunk arrivals and ticks driven by a
non-decreasing clock, from a freshly initialized session with a sane
configuration, the deadlines of the chunks emitted through `playChunk`
form a monotone non-decreasing sequence. -/
theorem c5_theorem (config : JitterBufferConfig) (now₀ : ℚ)
    (ops : List JitterBuffer.JBOp) (hwf : JitterBuffer.WFConfig config)
    (hops : (ops.map JitterBuffer.JBOp.time).Chain' (· ≤ ·)) :
    ((JitterBuffer.JBRun (JitterBuffer.JBInit config now₀) ops).emitted.map
      (fun c => c.chunk.playbackTime)).Chain' (· ≤ ·) := by
  cases ops with
  | nil => simp [JitterBuffer.JBRun, JitterBuffer.JBInit]
  | cons op rest =>
      have hchain : (op.time :: (op :: rest).map JitterBuffer.JBOp.time).Chain'
          (· ≤ ·) := by
        rw [List.map_cons]
        rw [List.map_cons] at hops
        exact List.chain'_cons.mpr ⟨le_refl _, hops⟩
      obtain ⟨t', hinv⟩ := JitterBuffer.JBInv_run
        (JitterBuffer.JBInv_init config now₀ hwf op.time) hchain
      refine List.Pairwise.chain' ?_
      rw [List.pairwise_map]
      exact hinv.2.1

/-- C5 (witness): instantiation of `c5_theorem` on the default adaptive
configuration and a concrete four-step trace. -/
theorem c5_witness :
    ((JitterBuffer.JBRun (JitterBuffer.JBInit jbConfigDefault 0)
      [JitterBuffer.JBOp.add 90 chunk95 netJitter60,
       JitterBuffer.JBOp.add 91 chunk100 netQuiet,
       JitterBuffer.JBOp.tick 300,
       JitterBuffer.JBOp.tick 400]).emitted.map
      (fun c => c.chunk.playbackTime)).Chain' (· ≤ ·) :=
  c5_theorem jbConfigDefault 0 _
    (by norm_num [JitterBuffer.WFConfig, jbConfigDefault])
    (by norm_num [JitterBuffer.JBOp.time])

/-- C8 (counterexample): release is head-blocking, so a chunk behind an
unready head can remain in the buffer while already satisfying the
release condition.  After inserting a chunk with deadline 95 and hold
time 200 and a chunk with deadline 100 and hold time 100, a tick at 250
leaves a chunk with `deadline + bufferTime = 200 ≤ 250` in the buffer,
contradicting the claim that no remaining chunk satisfies the release
condition. -/
theorem c8_counterexample :
    ∃ c ∈ (JitterBuffer.processBuffer (JitterBuffer.JBRun
        (JitterBuffer.JBInit jbConfigDefault 0)
        [JitterBuffer.JBOp.add 90 chunk95 netJitter60,
         JitterBuffer.JBOp.add 91 chunk100 netQuiet]).session 250).1.chunks,
      c.chunk.playbackTime + c.bufferTime ≤ 250 := by
  norm_num [JitterBuffer.JBRun, JitterBuffer.JBStep, JitterBuffer.JBInit,
    JitterBuffer.initSession, JitterBuffer.addChunk,
    JitterBuffer.adaptBufferSize, JitterBuffer.adaptTarget,
    JitterBuffer.calculateBufferTime, JitterBuffer.getMaxBufferChunks, jsCeil,
    JitterBuffer.insertByPlaybackTime, JitterBuffer.processBuffer,
    JitterBuffer.releaseReady, jbConfigDefault, netJitter60, netQuiet,
    chunk95, chunk100, List.foldl, List.cons_ne_nil]

/-- C8 (amended): a tick removes exactly the chunks it emits (in order),
an immediately repeated tick with the same clock emits nothing, and after
a tick the buffer's head — though not necessarily chunks behind it —
fails the release condition `deadline + bufferTime ≤ now`. -/
theorem c8_theorem (s : JitterBuffer.SessionBufState) (now : ℚ) :
    (JitterBuffer.processBuffer (JitterBuffer.processBuffer s now).1 now).2
      = [] ∧
    (JitterBuffer.processBuffer s now).2 ++
      (JitterBuffer.processBuffer s now).1.chunks = s.chunks ∧
    ∀ c, (JitterBuffer.processBuffer s now).1.chunks.head? = some c →
      ¬(c.chunk.playbackTime + c.bufferTime ≤ now) := by
  have hhead : ∀ c, (JitterBuffer.processBuffer s now).1.chunks.head? = some c →
      ¬(c.chunk.playbackTime + c.bufferTime ≤ now) := by
    intro c hc
    rw [JitterBuffer.processBuffer_fst_chunks] at hc
    by_cases hemp : s.chunks = []
    · rw [if_pos hemp, hemp] at hc
      simp at hc
    · rw [if_neg hemp] at hc
      exact JitterBuffer.releaseReady_rest_head hc
  refine ⟨?_, ?_, hhead⟩
  · rw [JitterBuffer.processBuffer_snd_eq]
    by_cases hrest : (JitterBuffer.processBuffer s now).1.chunks = []
    · rw [if_pos hrest]
    · rw [if_neg hrest, JitterBuffer.releaseReady_not_ready now _ hhead]
  · rw [JitterBuffer.processBuffer_snd_eq, JitterBuffer.processBuffer_fst_chunks]
    by_cases hemp : s.chunks = []
    · rw [if_pos hemp, if_pos hemp]
      simp
    · rw [if_neg hemp, if_neg hemp]
      exact JitterBuffer.releaseReady_append now s.chunks

/-- The per-session state reached by inserting `chunk95` (hold 200) and
`chunk100` (hold 100) into a fresh default buffer. -/
def sessionAfterTwoAdds : JitterBuffer.SessionBufState :=
  (JitterBuffer.JBRun (JitterBuffer.JBInit jbConfigDefault 0)
    [JitterBuffer.JBOp.add 90 chunk95 netJitter60,
     JitterBuffer.JBOp.add 91 chunk100 netQuiet]).session

/-- C8 (witness): instantiation of `c8_theorem` on the concrete buffer
state of the counterexample at clock 250. -/
theorem c8_witness :
    (JitterBuffer.processBuffer
      (JitterBuffer.processBuffer sessionAfterTwoAdds 250).1 250).2 = [] ∧
    (JitterBuffer.processBuffer sessionAfterTwoAdds 250).2 ++
      (JitterBuffer.processBuffer sessionAfterTwoAdds 250).1.chunks =
      sessionAfterTwoAdds.chunks := by
  have h := c8_theorem sessionAfterTwoAdds 250
  exact ⟨h.1, h.2.1⟩

/-- Buffer statistics recording one underrun and nothing else. -/
def statsOneUnderrun : BufferStatistics := ⟨0, 0, 1, 0, 0, 0⟩

/-- Buffer statistics with all counters zero. -/
def statsZero : BufferStatistics := ⟨0, 0, 0, 0, 0, 0⟩

/-- A jitter-buffer instance with the default shared config serving two
sessions `"a"` (one recorded underrun, adaptation window open) and
`"b"`. -/
def jbTwoSessions : JitterBuffer.Instance :=
  ⟨jbConfigDefault,
    [("a", []), ("b", [])],
    [("a", statsOneUnderrun), ("b", statsZero)],
    [("a", 0), ("b", 0)]⟩

/-- Chunk for session `"a"` with deadline 6000. -/
def chunkAt6000 : TimedAudioChunk := ⟨"a", [], 6000, 20, none, 1⟩

/-- Network conditions (60 ms jitter, packet-loss ratio 2) under which
the compensated buffer time hits the 300 ms clamp both before and after
adaptation. -/
def netClamped : NetworkConditions := ⟨0, 60, 2, 0⟩

/-- C10 (counterexample): an adaptation triggered by session `"a"`'s
underrun raises the shared target from 100 to 120, yet `"b"`'s computed
buffer time is unchanged (clamped to 300 ms both before and after), so
the buffer time does not change for *every* other session as claimed. -/
theorem c10_counterexample :
    (JitterBuffer.Instance.addChunk jbTwoSessions "a" chunkAt6000 netQuiet
        6000).config.targetBufferMs = 120 ∧
    jbTwoSessions.config.targetBufferMs = 100 ∧
    JitterBuffer.calculateBufferTime
        (JitterBuffer.Instance.addChunk jbTwoSessions "a" chunkAt6000 netQuiet
          6000).config netClamped =
      JitterBuffer.calculateBufferTime jbTwoSessions.config netClamped := by
  refine ⟨?_, by norm_num [jbTwoSessions, jbConfigDefault], ?_⟩ <;>
    norm_num [JitterBuffer.Instance.addChunk, JitterBuffer.addChunk,
      JitterBuffer.adaptBufferSize, JitterBuffer.adaptTarget,
      JitterBuffer.calculateBufferTime, JitterBuffer.getMaxBufferChunks, jsCeil,
      JitterBuffer.insertByPlaybackTime, mapGet, mapSet, jbTwoSessions,
      jbConfigDefault, statsOneUnderrun, statsZero, chunkAt6000, netQuiet,
      netClamped, List.cons_ne_nil]

/-- C10 (amended): `adaptBufferSize` mutates the single instance-wide
`config.targetBufferMs` shared by every session of the `JitterBuffer`
instance: after an underrun-driven adaptation during an `addChunk` for
one session (6/5-scaled target below the maximum), the shared target is
scaled by 6/5, and the buffer time computed for any network conditions
whose compensated value stays inside the `[min, max]` clamp — in
particular for other sessions of the same instance — shifts by exactly
one fifth of the old target; a session clamped at a boundary may see no
change. -/
theorem c10_theorem (jb : JitterBuffer.Instance) (sessionId : String)
    (chunk : TimedAudioChunk) (netA : NetworkConditions) (now : ℚ)
    (sbuf : List BufferedChunk) (stats : BufferStatistics)
    (hbuf : mapGet jb.buffer sessionId = some sbuf)
    (hstats : mapGet jb.statistics sessionId = some stats)
    (hnotlate : ¬chunk.playbackTime < now)
    (hadaptive : jb.config.adaptiveMode = true)
    (hwin : ¬now - (mapGet jb.lastNetworkUpdate sessionId).getD 0 < 5000)
    (hunder : 0 < stats.underruns)
    (hmaxroom : jb.config.targetBufferMs * (6 / 5) ≤ jb.config.maxBufferMs)
    (hpos : 0 < jb.config.targetBufferMs) :
    (JitterBuffer.Instance.addChunk jb sessionId chunk netA now).config =
      { jb.config with
          targetBufferMs := jb.config.targetBufferMs * (6 / 5) } ∧
    ∀ net : NetworkConditions,
      jb.config.minBufferMs ≤ jb.config.targetBufferMs +
        (min (net.jitterMs * 2) 100 + net.packetLoss * 50) →
      jb.config.targetBufferMs * (6 / 5) +
        (min (net.jitterMs * 2) 100 + net.packetLoss * 50) ≤
          jb.config.maxBufferMs →
      JitterBuffer.calculateBufferTime
          (JitterBuffer.Instance.addChunk jb sessionId chunk netA now).config
          net =
        JitterBuffer.calculateBufferTime jb.config net +
          jb.config.targetBufferMs / 5 ∧
      JitterBuffer.calculateBufferTime jb.config net ≠
        JitterBuffer.calculateBufferTime
          (JitterBuffer.Instance.addChunk jb sessionId chunk netA now).config
          net := by
  have hcfg : (JitterBuffer.Instance.addChunk jb sessionId chunk netA
      now).config =
      (JitterBuffer.addChunk jb.config
        ⟨sbuf, stats, (mapGet jb.lastNetworkUpdate sessionId).getD 0⟩
        chunk netA now).1 := by
    unfold JitterBuffer.Instance.addChunk
    rw [hbuf, hstats]
  obtain ⟨stats', hu, hcfg2⟩ := @JitterBuffer.addChunk_config_adaptive
    jb.config ⟨sbuf, stats, (mapGet jb.lastNetworkUpdate sessionId).getD 0⟩
    chunk netA now hnotlate hadaptive
  have hunder' : 0 < stats'.underruns := by
    rw [hu]
    exact hunder
  have hconf : (JitterBuffer.Instance.addChunk jb sessionId chunk netA
      now).config =
      { jb.config with
          targetBufferMs := jb.config.targetBufferMs * (6 / 5) } := by
    rw [hcfg, hcfg2]
    exact JitterBuffer.adaptBufferSize_increase hwin hunder' hmaxroom hpos
  refine ⟨hconf, ?_⟩
  intro net hmin hmax2
  rw [hconf]
  have ht : jb.config.targetBufferMs ≤ jb.config.targetBufferMs * (6 / 5) := by
    nlinarith
  have hold : JitterBuffer.calculateBufferTime jb.config net =
      jb.config.targetBufferMs +
        (min (net.jitterMs * 2) 100 + net.packetLoss * 50) :=
    JitterBuffer.calculateBufferTime_inside hadaptive hmin (by linarith)
  have hnew : JitterBuffer.calculateBufferTime
      { jb.config with
          targetBufferMs := jb.config.targetBufferMs * (6 / 5) } net =
      jb.config.targetBufferMs * (6 / 5) +
        (min (net.jitterMs * 2) 100 + net.packetLoss * 50) :=
    JitterBuffer.calculateBufferTime_inside hadaptive (by dsimp only; linarith)
      (by dsimp only; linarith)
  rw [hold, hnew]
  constructor
  · ring
  · intro h
    nlinarith [h]

/-- C10 (witness): instantiation of `c10_theorem` on the two-session
instance: session `"a"`'s underrun raises the shared target to 120, and
the buffer time session `"b"` would compute under mild (4 ms jitter,
in-clamp) conditions shifts by one fifth of the old target. -/
theorem c10_witness :
    (JitterBuffer.Instance.addChunk jbTwoSessions "a" chunkAt6000 netQuiet
        6000).config =
      { jbTwoSessions.config with
          targetBufferMs := jbTwoSessions.config.targetBufferMs * (6 / 5) } ∧
    JitterBuffer.calculateBufferTime
        (JitterBuffer.Instance.addChunk jbTwoSessions "a" chunkAt6000 netQuiet
          6000).config netJitter4 =
      JitterBuffer.calculateBufferTime jbTwoSessions.config netJitter4 +
        jbTwoSessions.config.targetBufferMs / 5 := by
  have h := c10_theorem jbTwoSessions "a" chunkAt6000 netQuiet 6000 []
    statsOneUnderrun
    (by norm_num [jbTwoSessions, mapGet])
    (by norm_num [jbTwoSessions, mapGet])
    (by norm_num [chunkAt6000])
    (by norm_num [jbTwoSessions, jbConfigDefault])
    (by norm_num [jbTwoSessions, mapGet])
    (by norm_num [statsOneUnderrun])
    (by norm_num [jbTwoSessions, jbConfigDefault])
    (by norm_num [jbTwoSessions, jbConfigDefault])
  exact ⟨h.1, (h.2 netJitter4
    (by norm_num [jbTwoSessions, jbConfigDefault, netJitter4])
    (by norm_num [jbTwoSessions, jbConfigDefault, netJitter4])).1⟩
